import Mathlib

/-!
Shallow embedding of the data-visualization app's ingestion logic
(`src/app.py`): delimiter detection, session state, and the three load
operations (uploaded file, manually pasted text, example dataset), together
with theorems settling the specification claims about them.

External collaborators (pandas parsers for xlsx/json/parquet, byte decoding)
are parameterized; the delimited-text parser and the bundled example dataset
are modelled from the spec, as marked on their doc comments.
-/

namespace VizApp

/-- A cell of a Tabular Dataset: numeric or categorical/text, per the data
model of the spec. Numeric inference in the modelled delimited parser is
restricted to integer literals, which suffices for the claims below. -/
inductive Cell where
  | num (x : ℚ)
  | str (s : String)
deriving DecidableEq, Repr

/-- The Tabular Dataset: ordered named columns and a list of rows. -/
structure DataFrame where
  columns : List String
  rows : List (List Cell)
deriving DecidableEq, Repr

/-- Python's `len(df)`: the number of rows. -/
def DataFrame.len (df : DataFrame) : Nat := df.rows.length

/-- Python's `content.count(c)` for a single character: raw occurrence count
over the whole text. -/
def countOcc (content : String) (c : Char) : Nat := content.toList.count c

/-- Embedding of `detect_delimiter` (src/app.py lines 12-19). -/
def detect_delimiter (content : String) : Char :=
  if countOcc content ',' > countOcc content '\t' ∧
      countOcc content ',' > countOcc content ' ' then ','
  else if countOcc content '\t' > countOcc content ' ' then '\t'
  else ' '

/-- Session state held by the presentation shell: the current-dataset
reference `st.session_state.df` and the `st.session_state.data_loaded` flag. -/
structure SessionState where
  df : Option DataFrame
  data_loaded : Bool
deriving DecidableEq, Repr

/-- The state set up by `main` before any load: no dataset, flag cleared. -/
def initState : SessionState := { df := none, data_loaded := false }

/-- User-facing notices emitted by the app. -/
inductive Msg where
  | success (text : String)
  | error (text : String)
  | warning (text : String)
  | info (text : String)
deriving DecidableEq, Repr

/-- Accumulating decimal-digit reader: fails on the first non-digit. -/
def natOfDigitsAux (acc : Nat) : List Char → Option Nat
  | [] => some acc
  | c :: cs =>
    if c.isDigit then natOfDigitsAux (acc * 10 + (c.toNat - 48)) cs else none

/-- A nonempty all-digit character list as a natural number. -/
def natOfDigits : List Char → Option Nat
  | [] => none
  | c :: cs => natOfDigitsAux 0 (c :: cs)

/-- An optionally negated integer literal. -/
def intOfChars : List Char → Option Int
  | '-' :: cs => (natOfDigits cs).map (fun n => -(n : Int))
  | cs => (natOfDigits cs).map (fun n => (n : Int))

/-- Cell parsing for the modelled delimited parser: integer literals become
numeric cells, everything else stays text. -/
def parseCell (s : String) : Cell :=
  match intOfChars s.toList with
  | some n => .num (n : ℚ)
  | none => .str s

/-- Modelled from the spec: `pandas.read_csv` on delimited text (the parser
behind both the upload text path and `load_manual_data`), which is external
library code not under src/. Per the spec: "parse as delimited tabular text
with the first row as header". Blank lines are skipped; empty input fails
(pandas raises EmptyDataError); ragged rows are rejected (the claims below
only exercise well-formed inputs). -/
def read_csv (text : String) (delim : Char) : Except String DataFrame :=
  let lines := (text.toList.splitOn '\n').filter (fun l => ¬ l = [])
  match lines with
  | [] => .error "No columns to parse from file"
  | header :: rest =>
    let cols := (header.splitOn delim).map String.mk
    let rows := rest.map (fun l => (l.splitOn delim).map (fun cs => parseCell (String.mk cs)))
    if rows.all (fun r => r.length = cols.length) then
      .ok { columns := cols, rows := rows }
    else
      .error "Error tokenizing data"

/-- An uploaded file: its declared name and raw byte payload. -/
structure UploadedFile where
  name : String
  bytes : List Nat
deriving DecidableEq, Repr

/-- External parsing collaborators of `load_uploaded_file`, parameterized:
`decode` models `bytes.decode()`, the rest model `pandas.read_excel`,
`pandas.read_json`, `pandas.read_parquet`. Any of them may raise, which the
embedding renders as `Except.error`. -/
structure Parsers where
  decode : List Nat → Except String String
  read_excel : List Nat → Except String DataFrame
  read_json : List Nat → Except String DataFrame
  read_parquet : List Nat → Except String DataFrame

/-- ASCII lowercasing, `str.lower()` on ASCII names. -/
def toLowerStr (s : String) : String := String.mk (s.toList.map Char.toLower)

/-- Python's `name.split('.')[-1].lower()` (src/app.py line 24). -/
def file_ext (name : String) : String :=
  toLowerStr (String.mk ((name.toList.splitOn '.').getLastD []))

/-- The shared tail of `load_uploaded_file`'s try block and its except
handler: on a parsed DataFrame, store it, set the flag and report success
with the row count (lines 40-42); on an exception, report the error and
clear the flag (lines 43-45). -/
def uploadFinish (f : UploadedFile) (s : SessionState) :
    Except String DataFrame → SessionState × List Msg
  | .ok df =>
    ({ df := some df, data_loaded := true },
     [.success ("Successfully loaded " ++ f.name ++ " with " ++
        toString df.rows.length ++ " rows")])
  | .error e =>
    ({ s with data_loaded := false },
     [.error ("Could not read file: " ++ e)])

/-- Embedding of `load_uploaded_file` (src/app.py lines 21-45): dispatch on
the declared extension; csv/tsv/txt decode the bytes, detect the delimiter
and parse as delimited text; xlsx/json/parquet go to the respective pandas
parsers; any other extension reports "Unsupported file format" and returns
without touching session state. -/
def load_uploaded_file (P : Parsers) (f : UploadedFile) (s : SessionState) :
    SessionState × List Msg :=
  let ext := file_ext f.name
  if ext = "csv" ∨ ext = "tsv" ∨ ext = "txt" then
    match P.decode f.bytes with
    | .error e =>
      ({ s with data_loaded := false }, [.error ("Could not read file: " ++ e)])
    | .ok content =>
      uploadFinish f s (read_csv content (detect_delimiter content))
  else if ext = "xlsx" then
    uploadFinish f s (P.read_excel f.bytes)
  else if ext = "json" then
    uploadFinish f s (P.read_json f.bytes)
  else if ext = "parquet" then
    uploadFinish f s (P.read_parquet f.bytes)
  else
    (s, [.error "Unsupported file format. Please upload CSV, TSV, TXT, Excel, JSON, or Parquet."])

/-- Embedding of `load_manual_data` (src/app.py lines 47-57): detect the
delimiter of the pasted text, parse it as delimited text; on success store
the DataFrame, set the flag and report a fixed success message; on failure
report the error and clear the flag. -/
def load_manual_data (manual_text : String) (s : SessionState) :
    SessionState × List Msg :=
  match read_csv manual_text (detect_delimiter manual_text) with
  | .ok df =>
    ({ df := some df, data_loaded := true },
     [.success "Successfully loaded manual data."])
  | .error e =>
    ({ s with data_loaded := false },
     [.error ("Could not process manual data: " ++ e)])

/-- Python whitespace, the character set stripped by `str.strip()`. -/
def isPySpace (c : Char) : Bool :=
  c = ' ' || c = '\t' || c = '\n' || c = '\r' || c = Char.ofNat 11 || c = Char.ofNat 12

/-- Whether `manual_text.strip()` is falsy, i.e. the text is empty or
whitespace-only. -/
def stripIsEmpty (t : String) : Bool := t.toList.all isPySpace

/-- Embedding of the manual-data button handler in `main` (src/app.py lines
81-85): load the pasted text only when it is not blank, else warn. -/
def manual_button (manual_text : String) (s : SessionState) :
    SessionState × List Msg :=
  if ¬ stripIsEmpty manual_text then
    load_manual_data manual_text s
  else
    (s, [.warning "Please enter some data before clicking the button."])

/-- Modelled from the spec: the bundled example dataset `px.data.tips()`
(plotly library data, not under src/) — "a restaurant-tipping dataset with
numeric columns such as bill amount, tip, and party size, and categorical
columns such as day and smoker status". Its leading rows, with the library's
column names. -/
def tips : DataFrame :=
  { columns := ["total_bill", "tip", "sex", "smoker", "day", "time", "size"],
    rows :=
      [[.num (1699/100), .num (101/100), .str "Female", .str "No", .str "Sun", .str "Dinner", .num 2],
       [.num (1034/100), .num (166/100), .str "Male", .str "No", .str "Sun", .str "Dinner", .num 3],
       [.num (2101/100), .num (350/100), .str "Male", .str "No", .str "Sun", .str "Dinner", .num 3]] }

/-- Embedding of `load_example_data` (src/app.py lines 6-10): store the tips
dataset, set the flag, report success with the row count. It takes no input
payload and has no failure branch. -/
def load_example_data (_s : SessionState) : SessionState × List Msg :=
  ({ df := some tips, data_loaded := true },
   [.success ("Loaded example dataset with " ++ toString tips.rows.length ++ " rows")])

/-- A cell is numeric when it carries a number. -/
def Cell.isNum : Cell → Bool
  | .num _ => true
  | .str _ => false

/-- The cells of the column at index `i`, one per row. -/
def DataFrame.colCells (df : DataFrame) (i : Nat) : List Cell :=
  df.rows.map (fun r => r.getD i (.str ""))

/-- A named column exists and every one of its cells is numeric. -/
def DataFrame.isNumericCol (df : DataFrame) (name : String) : Bool :=
  match df.columns.findIdx? (fun c => c = name) with
  | some i => (df.colCells i).all Cell.isNum
  | none => false

/-- A named column exists and every one of its cells is categorical/text. -/
def DataFrame.isCategoricalCol (df : DataFrame) (name : String) : Bool :=
  match df.columns.findIdx? (fun c => c = name) with
  | some i => (df.colCells i).all (fun c => ¬ c.isNum)
  | none => false

/-- Whether `pat` occurs at the head of `s`. -/
def startsWith : List Char → List Char → Bool
  | [], _ => true
  | _ :: _, [] => false
  | p :: ps, c :: cs => p = c && startsWith ps cs

/-- Whether `pat` occurs contiguously anywhere in `s`. -/
def containsSeq (pat : List Char) : List Char → Bool
  | [] => startsWith pat []
  | c :: cs => startsWith pat (c :: cs) || containsSeq pat cs

/-- Whether the message `m` mentions the row count `n`, i.e. contains the
text of `n` followed by " rows". -/
def mentionsCount (m : String) (n : Nat) : Bool :=
  containsSeq ((toString n ++ " rows").toList) m.toList

/-- A tiny two-column DataFrame used as the concrete previously-loaded
dataset of witnesses. -/
def dfAB : DataFrame := { columns := ["a", "b"], rows := [[.num 1, .num 2]] }

/-- A concrete decoder treating bytes as character codes. -/
def asciiDecode (bs : List Nat) : Except String String :=
  .ok (String.mk (bs.map Char.ofNat))

/-- Concrete external parsers for witnesses. -/
def P0 : Parsers :=
  { decode := asciiDecode,
    read_excel := fun _ => .ok dfAB,
    read_json := fun _ => .error "json parse error",
    read_parquet := fun _ => .error "parquet parse error" }

/-- Byte payload of a small comma-separated file. -/
def csvBytes : List Nat := "a,b\n1,2".toList.map Char.toNat

/-- Every list occurs at its own head. -/
lemma startsWith_self (l : List Char) : startsWith l l = true := by
  induction l with
  | nil => rfl
  | cons c cs ih => simp [startsWith, ih]

/-- Every list occurs in itself. -/
lemma containsSeq_self (pat : List Char) : containsSeq pat pat = true := by
  cases pat with
  | nil => rfl
  | cons c cs => simp [containsSeq, startsWith_self]

/-- A pattern occurs in any list that ends with it. -/
lemma containsSeq_append_left (a pat : List Char) :
    containsSeq pat (a ++ pat) = true := by
  induction a with
  | nil => simpa using containsSeq_self pat
  | cons c cs ih => simp [containsSeq, ih]

/-- A message built by appending the row-count text mentions the row count. -/
lemma mentionsCount_of_tail (pre : String) (n : Nat) :
    mentionsCount (pre ++ toString n ++ " rows") n = true := by
  have h := containsSeq_append_left pre.toList ((toString n ++ " rows").toList)
  unfold mentionsCount
  simpa [List.append_assoc] using h

/-- The tail of the upload try block either stores the parsed DataFrame with
a row-count success message, or reports the exception and clears the flag. -/
lemma uploadFinish_cases (f : UploadedFile) (s : SessionState) :
    ∀ r : Except String DataFrame,
      (∃ df, r = .ok df ∧
        uploadFinish f s r =
          ({ df := some df, data_loaded := true },
           [Msg.success ("Successfully loaded " ++ f.name ++ " with " ++
              toString df.rows.length ++ " rows")]))
    ∨ (∃ e, r = .error e ∧
        uploadFinish f s r =
          ({ s with data_loaded := false },
           [Msg.error ("Could not read file: " ++ e)]))
  | .ok df => .inl ⟨df, rfl, rfl⟩
  | .error e => .inr ⟨e, rfl, rfl⟩

/-- Every run of `load_uploaded_file` ends in one of three shapes: a stored
DataFrame with a row-count success message, an error report with the flag
cleared and the rest of the state untouched, or the unsupported-format
report with the whole state untouched. -/
lemma load_uploaded_file_cases (P : Parsers) (f : UploadedFile) (s : SessionState) :
    (∃ df, load_uploaded_file P f s =
      ({ df := some df, data_loaded := true },
       [Msg.success ("Successfully loaded " ++ f.name ++ " with " ++
          toString df.rows.length ++ " rows")]))
  ∨ (∃ e, load_uploaded_file P f s =
      ({ s with data_loaded := false },
       [Msg.error ("Could not read file: " ++ e)]))
  ∨ load_uploaded_file P f s =
      (s, [Msg.error "Unsupported file format. Please upload CSV, TSV, TXT, Excel, JSON, or Parquet."]) := by
  unfold load_uploaded_file
  by_cases h1 : file_ext f.name = "csv" ∨ file_ext f.name = "tsv" ∨ file_ext f.name = "txt"
  · rw [if_pos h1]
    cases hd : P.decode f.bytes with
    | error e => exact .inr (.inl ⟨e, rfl⟩)
    | ok content =>
      rcases uploadFinish_cases f s (read_csv content (detect_delimiter content)) with
        ⟨df, _, h⟩ | ⟨e, _, h⟩
      · exact .inl ⟨df, h⟩
      · exact .inr (.inl ⟨e, h⟩)
  · rw [if_neg h1]
    by_cases h2 : file_ext f.name = "xlsx"
    · rw [if_pos h2]
      rcases uploadFinish_cases f s (P.read_excel f.bytes) with ⟨df, _, h⟩ | ⟨e, _, h⟩
      · exact .inl ⟨df, h⟩
      · exact .inr (.inl ⟨e, h⟩)
    · rw [if_neg h2]
      by_cases h3 : file_ext f.name = "json"
      · rw [if_pos h3]
        rcases uploadFinish_cases f s (P.read_json f.bytes) with ⟨df, _, h⟩ | ⟨e, _, h⟩
        · exact .inl ⟨df, h⟩
        · exact .inr (.inl ⟨e, h⟩)
      · rw [if_neg h3]
        by_cases h4 : file_ext f.name = "parquet"
        · rw [if_pos h4]
          rcases uploadFinish_cases f s (P.read_parquet f.bytes) with ⟨df, _, h⟩ | ⟨e, _, h⟩
          · exact .inl ⟨df, h⟩
          · exact .inr (.inl ⟨e, h⟩)
        · rw [if_neg h4]
          exact .inr (.inr rfl)

/-- Every run of `load_manual_data` either stores the parsed DataFrame with
the fixed success message, or reports the exception and clears the flag. -/
lemma load_manual_data_cases (t : String) (s : SessionState) :
    (∃ df, load_manual_data t s =
      ({ df := some df, data_loaded := true },
       [Msg.success "Successfully loaded manual data."]))
  ∨ (∃ e, load_manual_data t s =
      ({ s with data_loaded := false },
       [Msg.error ("Could not process manual data: " ++ e)])) := by
  unfold load_manual_data
  cases read_csv t (detect_delimiter t) with
  | ok df => exact .inl ⟨df, rfl⟩
  | error e => exact .inr ⟨e, rfl⟩

/-- C1: the Delimiter Detector returns ',' if the raw comma count strictly
exceeds both the tab count and the space count; otherwise '\t' if the tab
count strictly exceeds the space count; otherwise ' '. Counts are raw
character occurrences over the whole text. -/
theorem C1_detect_delimiter_selects_by_raw_counts (content : String) :
    (countOcc content ',' > countOcc content '\t' ∧
        countOcc content ',' > countOcc content ' ' →
      detect_delimiter content = ',')
  ∧ (¬(countOcc content ',' > countOcc content '\t' ∧
        countOcc content ',' > countOcc content ' ') →
      countOcc content '\t' > countOcc content ' ' →
      detect_delimiter content = '\t')
  ∧ (¬(countOcc content ',' > countOcc content '\t' ∧
        countOcc content ',' > countOcc content ' ') →
      ¬(countOcc content '\t' > countOcc content ' ') →
      detect_delimiter content = ' ') := by
  unfold detect_delimiter
  refine ⟨fun h => by rw [if_pos h],
          fun h1 h2 => by rw [if_neg h1, if_pos h2],
          fun h1 h2 => by rw [if_neg h1, if_neg h2]⟩

/-- Witness for C1: each of the three delimiters wins on a concrete input. -/
theorem C1_witness :
    detect_delimiter "a,b" = ',' ∧ detect_delimiter "a\tb" = '\t' ∧
      detect_delimiter "a b" = ' ' :=
  ⟨(C1_detect_delimiter_selects_by_raw_counts "a,b").1 (by decide),
   (C1_detect_delimiter_selects_by_raw_counts "a\tb").2.1 (by decide) (by decide),
   (C1_detect_delimiter_selects_by_raw_counts "a b").2.2 (by decide) (by decide)⟩

/-- C9: the Delimiter Detector is total with range exactly the three
characters, and a text with none of the three occurrences (all counts zero,
no strict inequality holds) gets the space default. -/
theorem C9_detect_delimiter_total_range (content : String) :
    (detect_delimiter content = ',' ∨ detect_delimiter content = '\t' ∨
      detect_delimiter content = ' ')
  ∧ (countOcc content ',' = 0 → countOcc content '\t' = 0 →
      countOcc content ' ' = 0 → detect_delimiter content = ' ') := by
  constructor
  · unfold detect_delimiter
    split
    · exact .inl rfl
    · split
      · exact .inr (.inl rfl)
      · exact .inr (.inr rfl)
  · intro h1 h2 h3
    unfold detect_delimiter
    rw [h1, h2, h3]
    simp

/-- Witness for C9: the empty string and a delimiter-free string both get
the space default. -/
theorem C9_witness : detect_delimiter "" = ' ' ∧ detect_delimiter "xyz" = ' ' :=
  ⟨(C9_detect_delimiter_total_range "").2 (by decide) (by decide) (by decide),
   (C9_detect_delimiter_total_range "xyz").2 (by decide) (by decide) (by decide)⟩

/-- C3: an upload whose extension is not among csv/tsv/txt/xlsx/json/parquet
reports the unsupported-format error, produces no dataset and leaves the
session state — in particular any previously loaded dataset — untouched. -/
theorem C3_unsupported_extension_no_mutation (P : Parsers) (f : UploadedFile)
    (s : SessionState)
    (h1 : ¬(file_ext f.name = "csv" ∨ file_ext f.name = "tsv" ∨ file_ext f.name = "txt"))
    (h2 : ¬ file_ext f.name = "xlsx") (h3 : ¬ file_ext f.name = "json")
    (h4 : ¬ file_ext f.name = "parquet") :
    load_uploaded_file P f s =
      (s, [Msg.error "Unsupported file format. Please upload CSV, TSV, TXT, Excel, JSON, or Parquet."]) := by
  unfold load_uploaded_file
  rw [if_neg h1, if_neg h2, if_neg h3, if_neg h4]

/-- Witness for C3: uploading `img.bmp` over a loaded dataset reports the
unsupported-format error and leaves the state unchanged. -/
theorem C3_witness :
    load_uploaded_file P0 { name := "img.bmp", bytes := [] }
        { df := some dfAB, data_loaded := true } =
      ({ df := some dfAB, data_loaded := true },
       [Msg.error "Unsupported file format. Please upload CSV, TSV, TXT, Excel, JSON, or Parquet."]) :=
  C3_unsupported_extension_no_mutation P0 _ _ (by decide) (by decide) (by decide) (by decide)

/-- C5: ingesting comma-delimited text with header `a,b,c` and two data rows
yields a dataset with columns `["a","b","c"]` in order and 2 rows, stored as
the loaded dataset. -/
theorem C5_manual_header_and_shape :
    load_manual_data "a,b,c\n1,2,3\n4,5,6" initState =
      ({ df := some { columns := ["a", "b", "c"],
                      rows := [[Cell.num 1, Cell.num 2, Cell.num 3],
                               [Cell.num 4, Cell.num 5, Cell.num 6]] },
         data_loaded := true },
       [Msg.success "Successfully loaded manual data."])
  ∧ ((load_manual_data "a,b,c\n1,2,3\n4,5,6" initState).1.df.map
      (fun df => df.columns)) = some ["a", "b", "c"]
  ∧ ((load_manual_data "a,b,c\n1,2,3\n4,5,6" initState).1.df.map
      DataFrame.len) = some 2 := by
  refine ⟨by decide, by decide, by decide⟩

/-- C6: a blank (empty or whitespace-only) pasted text makes the manual-data
button report a warning and leave the session state unchanged, so the loaded
flag is not set. -/
theorem C6_blank_manual_input (t : String) (s : SessionState)
    (h : stripIsEmpty t = true) :
    manual_button t s = (s, [Msg.warning "Please enter some data before clicking the button."])
  ∧ (manual_button t s).1.data_loaded = s.data_loaded := by
  have he : manual_button t s = (s, [Msg.warning "Please enter some data before clicking the button."]) := by
    unfold manual_button
    simp [h]
  exact ⟨he, by rw [he]⟩

/-- Witness for C6: a whitespace-only paste over the initial state warns and
leaves the flag cleared. -/
theorem C6_witness :
    manual_button "  \n\t " initState =
      (initState, [Msg.warning "Please enter some data before clicking the button."])
  ∧ (manual_button "  \n\t " initState).1.data_loaded = initState.data_loaded :=
  C6_blank_manual_input "  \n\t " initState (by decide)

/-- C8: the Example Dataset Provider has no failure branch, stores the fixed
tips dataset, sets the loaded flag, reports the row count, and the dataset is
non-empty with a numeric "tip" column and a categorical "day" column. -/
theorem C8_example_dataset (s : SessionState) :
    load_example_data s =
      ({ df := some tips, data_loaded := true },
       [Msg.success ("Loaded example dataset with " ++ toString tips.rows.length ++ " rows")])
  ∧ ¬ tips.rows = []
  ∧ tips.isNumericCol "tip" = true
  ∧ tips.isCategoricalCol "day" = true :=
  ⟨rfl, by decide, by decide, by decide⟩

/-- Counterexample to C2 as stated: after a successful load (flag set), an
upload with the unsupported extension `.bmp` fails with the
unsupported-format report yet leaves the loaded flag still set — the stale
prior success is not cleared. -/
theorem C2_counterexample :
    ({ df := some dfAB, data_loaded := true } : SessionState).data_loaded = true
  ∧ load_uploaded_file P0 { name := "img.bmp", bytes := [] }
        { df := some dfAB, data_loaded := true } =
      ({ df := some dfAB, data_loaded := true },
       [Msg.error "Unsupported file format. Please upload CSV, TSV, TXT, Excel, JSON, or Parquet."])
  ∧ (load_uploaded_file P0 { name := "img.bmp", bytes := [] }
        { df := some dfAB, data_loaded := true }).1.data_loaded = true := by
  decide

/-- C2 amended: after any decode/parse failure the loaded flag is cleared;
only the unsupported-extension failure returns with the session state
untouched, so the flag can be set after a call only when the call succeeded
or when it was the unsupported-extension failure over an already-set flag. -/
theorem C2_failure_clears_flag_except_unsupported (P : Parsers) (f : UploadedFile)
    (t : String) (s : SessionState) :
    ((load_uploaded_file P f s).1.data_loaded = true →
      (∃ df m, load_uploaded_file P f s =
        ({ df := some df, data_loaded := true }, [Msg.success m]))
      ∨ (load_uploaded_file P f s =
          (s, [Msg.error "Unsupported file format. Please upload CSV, TSV, TXT, Excel, JSON, or Parquet."])
         ∧ s.data_loaded = true))
  ∧ ((load_manual_data t s).1.data_loaded = true →
      ∃ df, load_manual_data t s =
        ({ df := some df, data_loaded := true },
         [Msg.success "Successfully loaded manual data."])) := by
  constructor
  · intro h
    rcases load_uploaded_file_cases P f s with ⟨df, he⟩ | ⟨e, he⟩ | he
    · exact .inl ⟨df, _, he⟩
    · rw [he] at h
      simp at h
    · rw [he] at h
      exact .inr ⟨he, h⟩
  · intro h
    rcases load_manual_data_cases t s with ⟨df, he⟩ | ⟨e, he⟩
    · exact ⟨df, he⟩
    · rw [he] at h
      simp at h

/-- Witness for the amended C2: a concrete successful manual load is in the
success shape. -/
theorem C2_witness :
    ∃ df, load_manual_data "a,b\n1,2" initState =
      ({ df := some df, data_loaded := true },
       [Msg.success "Successfully loaded manual data."]) :=
  (C2_failure_clears_flag_except_unsupported P0 { name := "x.csv", bytes := [] }
      "a,b\n1,2" initState).2 (by decide)

/-- Counterexample to C4 as stated: a successful manual ingestion of a
2-row dataset reports the fixed message, which does not mention the row
count. -/
theorem C4_counterexample :
    (load_manual_data "a,b\n1,2\n3,4" initState).1.data_loaded = true
  ∧ ((load_manual_data "a,b\n1,2\n3,4" initState).1.df.map DataFrame.len) = some 2
  ∧ (load_manual_data "a,b\n1,2\n3,4" initState).2 =
      [Msg.success "Successfully loaded manual data."]
  ∧ mentionsCount "Successfully loaded manual data." 2 = false := by
  decide

/-- C4 amended: a successful upload and a successful example-data load
report the dataset's row count, while a successful manual (pasted-text) load
reports a fixed message without the row count. -/
theorem C4_success_row_count_report (P : Parsers) (f : UploadedFile)
    (s : SessionState) (t : String) (df : DataFrame) (m : String) :
    (load_uploaded_file P f s = ({ df := some df, data_loaded := true }, [Msg.success m]) →
      mentionsCount m df.rows.length = true)
  ∧ ((load_example_data s).2 = [Msg.success m] → (load_example_data s).1.df = some df →
      mentionsCount m df.rows.length = true)
  ∧ (load_manual_data t s = ({ df := some df, data_loaded := true }, [Msg.success m]) →
      m = "Successfully loaded manual data.") := by
  refine ⟨?_, ?_, ?_⟩
  · intro h
    rcases load_uploaded_file_cases P f s with ⟨df0, he⟩ | ⟨e, he⟩ | he
    · rw [he] at h
      injection h with h1 h2
      injection h2 with h3 h4
      injection h3 with hm
      injection h1 with hdf hfl
      injection hdf with hdf'
      subst hdf'
      subst hm
      exact mentionsCount_of_tail ("Successfully loaded " ++ f.name ++ " with ")
        df0.rows.length
    · rw [he] at h
      simp at h
    · rw [he] at h
      simp at h
  · intro h2 h3
    unfold load_example_data at h2 h3
    simp only [List.cons.injEq, Msg.success.injEq, and_true] at h2
    simp only [Option.some.injEq] at h3
    subst h3
    rw [← h2]
    exact mentionsCount_of_tail "Loaded example dataset with " tips.rows.length
  · intro h
    rcases load_manual_data_cases t s with ⟨df0, he⟩ | ⟨e, he⟩
    · rw [he] at h
      injection h with h1 h2
      injection h2 with h3 h4
      injection h3 with hm
      exact hm.symm
    · rw [he] at h
      simp at h

/-- Witness for the amended C4: a concrete successful upload's report does
mention the row count. -/
theorem C4_witness :
    mentionsCount "Successfully loaded d.csv with 1 rows" dfAB.rows.length = true :=
  (C4_success_row_count_report P0 { name := "d.csv", bytes := csvBytes } initState ""
      dfAB "Successfully loaded d.csv with 1 rows").1 (by decide)

/-- C10: when an upload or a manual load fails with a decode/parse error
(and hence clears the loaded flag), the stored current-dataset reference is
left unchanged: the resulting state is exactly the prior state with only the
flag set to false. -/
theorem C10_error_branch_only_clears_flag (P : Parsers) (f : UploadedFile)
    (t : String) (s : SessionState) :
    ((load_uploaded_file P f s).1.data_loaded = false →
      (load_uploaded_file P f s).1 = { s with data_loaded := false })
  ∧ ((load_manual_data t s).1.data_loaded = false →
      (load_manual_data t s).1 = { s with data_loaded := false }) := by
  constructor
  · intro h
    rcases load_uploaded_file_cases P f s with ⟨df, he⟩ | ⟨e, he⟩ | he
    · rw [he] at h
      simp at h
    · rw [he]
    · rw [he] at h ⊢
      cases s with
      | mk d fl => exact congrArg (SessionState.mk d) h
  · intro h
    rcases load_manual_data_cases t s with ⟨df, he⟩ | ⟨e, he⟩
    · rw [he] at h
      simp at h
    · rw [he]

/-- Witness for C10: a failing manual load over a loaded state keeps the
dataset reference and clears only the flag. -/
theorem C10_witness :
    (load_manual_data "" { df := some dfAB, data_loaded := true }).1 =
      { df := some dfAB, data_loaded := false } :=
  (C10_error_branch_only_clears_flag P0 { name := "x.csv", bytes := [] } ""
      { df := some dfAB, data_loaded := true }).2 (by decide)

/-- C7: ingestion dispatches on the declared extension — csv/tsv/txt decode
the bytes, run the Delimiter Detector, and parse as delimited text; xlsx,
json and parquet go to the spreadsheet, tabular-JSON and columnar parsers
respectively; pasted text is always delimited text with the same detection;
and a parsed delimited dataset takes its column names from the first
non-blank line split on the detected delimiter. -/
theorem C7_extension_dispatch (P : Parsers) (f : UploadedFile) (s : SessionState)
    (t : String) :
    ((file_ext f.name = "csv" ∨ file_ext f.name = "tsv" ∨ file_ext f.name = "txt") →
      load_uploaded_file P f s =
        match P.decode f.bytes with
        | .error e => ({ s with data_loaded := false }, [Msg.error ("Could not read file: " ++ e)])
        | .ok content => uploadFinish f s (read_csv content (detect_delimiter content)))
  ∧ (file_ext f.name = "xlsx" →
      load_uploaded_file P f s = uploadFinish f s (P.read_excel f.bytes))
  ∧ (file_ext f.name = "json" →
      load_uploaded_file P f s = uploadFinish f s (P.read_json f.bytes))
  ∧ (file_ext f.name = "parquet" →
      load_uploaded_file P f s = uploadFinish f s (P.read_parquet f.bytes))
  ∧ (load_manual_data t s =
      match read_csv t (detect_delimiter t) with
      | .ok df => ({ df := some df, data_loaded := true },
          [Msg.success "Successfully loaded manual data."])
      | .error e => ({ s with data_loaded := false },
          [Msg.error ("Could not process manual data: " ++ e)]))
  ∧ (∀ df, read_csv t (detect_delimiter t) = .ok df →
      df.columns = ((((t.toList.splitOn '\n').filter (fun l => ¬ l = [])).headD
        []).splitOn (detect_delimiter t)).map String.mk) := by
  refine ⟨?_, ?_, ?_, ?_, rfl, ?_⟩
  · intro h
    unfold load_uploaded_file
    rw [if_pos h]
  · intro h
    have h1 : ¬(file_ext f.name = "csv" ∨ file_ext f.name = "tsv" ∨ file_ext f.name = "txt") := by
      rw [h]; decide
    unfold load_uploaded_file
    rw [if_neg h1, if_pos h]
  · intro h
    have h1 : ¬(file_ext f.name = "csv" ∨ file_ext f.name = "tsv" ∨ file_ext f.name = "txt") := by
      rw [h]; decide
    have h2 : ¬ file_ext f.name = "xlsx" := by rw [h]; decide
    unfold load_uploaded_file
    rw [if_neg h1, if_neg h2, if_pos h]
  · intro h
    have h1 : ¬(file_ext f.name = "csv" ∨ file_ext f.name = "tsv" ∨ file_ext f.name = "txt") := by
      rw [h]; decide
    have h2 : ¬ file_ext f.name = "xlsx" := by rw [h]; decide
    have h3 : ¬ file_ext f.name = "json" := by rw [h]; decide
    unfold load_uploaded_file
    rw [if_neg h1, if_neg h2, if_neg h3, if_pos h]
  · intro df h
    simp only [read_csv] at h
    cases hl : (t.toList.splitOn '\n').filter (fun l => ¬ l = []) with
    | nil =>
      rw [hl] at h
      simp at h
    | cons header rest =>
      rw [hl] at h
      dsimp only at h
      split at h
      · simp only [Except.ok.injEq] at h
        subst h
        rfl
      · simp at h

/-- Witness for C7: a concrete xlsx upload goes to the spreadsheet parser. -/
theorem C7_witness :
    load_uploaded_file P0 { name := "w.xlsx", bytes := [] } initState =
      uploadFinish { name := "w.xlsx", bytes := [] } initState (P0.read_excel []) :=
  (C7_extension_dispatch P0 { name := "w.xlsx", bytes := [] } initState "").2.1 (by decide)

end VizApp
